import Mathlib

/- Formal model of the circuit animation engine of "Pila de Volta":
the closed-loop path parameterization getXY, the electron particle pool and
its per-frame animate step, the battery depletion state machine
(toggle / depletion tick / reset), the battery-internal spawn pool rendering,
and the field-line sampling. All real-valued quantities of the source are
embedded as rationals; every constant of the source is rational, so the
arithmetic is exact. -/

namespace Volta

/- Constants from the source. -/

def RAIL_TOTAL_LENGTH : ℚ := 2040

def ELECTRON_SPEED : ℚ := 20

def ELECTROLYTE_DEPLETION_RATE : ℚ := 5

def IONS_DEPLETION_RATE : ℚ := 5

/-- Segment tag of a point on the loop, source type
`segment: 'top' | 'right' | 'bottom' | 'left'`. -/
inductive Segment
  | top
  | right
  | bottom
  | left
deriving DecidableEq

/-- A projected point on the loop, source `interface Point Nat{x, y, segment}`. -/
structure Point where
  x : ℚ
  y : ℚ
  segment : Segment
deriving DecidableEq

/-- Mathematical floored modulus on rationals, `a - b * floor (a / b)`.
This is the reference "mod" of the spec; the JS remainder is related to it
below. -/
def fmod (a b : ℚ) : ℚ := a - b * ⌊a / b⌋

/-- The JavaScript `%` operator on rationals for the moduli used by the
source (both positive): the remainder of division with the quotient rounded
toward zero, so for a negative dividend the floor is taken of `-a / b`. -/
def jsMod (a b : ℚ) : ℚ := if a < 0 then a + b * ⌊-a / b⌋ else a - b * ⌊a / b⌋

/-- Source, getXY lines 38-39: `let p = trackPos % RAIL_TOTAL_LENGTH;
if (p < 0) p += RAIL_TOTAL_LENGTH;` — normalization of a track position into
the fundamental interval. -/
def wrapTrack (trackPos : ℚ) : ℚ :=
  let p := jsMod trackPos RAIL_TOTAL_LENGTH
  if p < 0 then p + RAIL_TOTAL_LENGTH else p

/- Segment lengths of the loop, source locals s1..s4 of getXY. -/

def s1 : ℚ := 317.5

def s2 : ℚ := 385

def s3 : ℚ := 635

def s4 : ℚ := 385

/-- Branch of getXY for `p < s1` (top right). -/
def topRightSeg (p transPos : ℚ) : Point :=
  { x := 325 + p, y := 7.5 + transPos, segment := Segment.top }

/-- Branch of getXY for `s1 ≤ p < s1 + s2` (right). -/
def rightSeg (p transPos : ℚ) : Point :=
  { x := 642.5 - transPos, y := 7.5 + (p - s1), segment := Segment.right }

/-- Branch of getXY for `s1 + s2 ≤ p < s1 + s2 + s3` (bottom). -/
def bottomSeg (p transPos : ℚ) : Point :=
  { x := 642.5 - (p - (s1 + s2)), y := 392.5 - transPos, segment := Segment.bottom }

/-- Branch of getXY for `s1 + s2 + s3 ≤ p < s1 + s2 + s3 + s4` (left). -/
def leftSeg (p transPos : ℚ) : Point :=
  { x := 7.5 + transPos, y := 392.5 - (p - (s1 + s2 + s3)), segment := Segment.left }

/-- Final branch of getXY (top left). -/
def topLeftSeg (p transPos : ℚ) : Point :=
  { x := 7.5 + (p - (s1 + s2 + s3 + s4)), y := 7.5 + transPos, segment := Segment.top }

/-- The if-chain of getXY on an already-normalized position p. -/
def getXYaux (p transPos : ℚ) : Point :=
  if p < s1 then topRightSeg p transPos
  else if p < s1 + s2 then rightSeg p transPos
  else if p < s1 + s2 + s3 then bottomSeg p transPos
  else if p < s1 + s2 + s3 + s4 then leftSeg p transPos
  else topLeftSeg p transPos

/-- Source `getXY(trackPos, transPos)`: normalize the track position, then
dispatch on the segment the position falls in. -/
def getXY (trackPos transPos : ℚ) : Point :=
  getXYaux (wrapTrack trackPos) transPos

/- Arithmetic facts about fmod, jsMod and wrapTrack. -/

theorem fmod_eq_fract (a b : ℚ) (hb : b ≠ 0) : fmod a b = b * Int.fract (a / b) := by
  unfold fmod Int.fract
  rw [mul_sub, mul_comm b (a / b), div_mul_cancel₀ a hb]

theorem fmod_nonneg (a b : ℚ) (hb : 0 < b) : 0 ≤ fmod a b := by
  rw [fmod_eq_fract a b (ne_of_gt hb)]
  exact mul_nonneg hb.le (Int.fract_nonneg _)

theorem fmod_lt (a b : ℚ) (hb : 0 < b) : fmod a b < b := by
  rw [fmod_eq_fract a b (ne_of_gt hb)]
  calc b * Int.fract (a / b) < b * 1 :=
        (mul_lt_mul_left hb).mpr (Int.fract_lt_one _)
    _ = b := mul_one b

theorem jsMod_of_nonneg (a b : ℚ) (ha : 0 ≤ a) : jsMod a b = fmod a b := by
  unfold jsMod fmod
  rw [if_neg (not_lt.mpr ha)]

theorem jsMod_of_neg (a b : ℚ) (ha : a < 0) (hb : b ≠ 0) :
    jsMod a b = -(b * Int.fract (-(a / b))) := by
  unfold jsMod
  rw [if_pos ha, neg_div]
  have hfl : ((⌊-(a / b)⌋ : ℤ) : ℚ) = -(a / b) - Int.fract (-(a / b)) := by
    unfold Int.fract
    ring
  rw [hfl, mul_sub, mul_neg, mul_comm b (a / b), div_mul_cancel₀ a hb]
  ring

theorem wrapTrack_eq_fmod (a : ℚ) : wrapTrack a = fmod a RAIL_TOTAL_LENGTH := by
  have hb : (0 : ℚ) < RAIL_TOTAL_LENGTH := by norm_num [RAIL_TOTAL_LENGTH]
  have hb0 : RAIL_TOTAL_LENGTH ≠ (0 : ℚ) := ne_of_gt hb
  unfold wrapTrack
  rcases le_or_lt 0 a with ha | ha
  · rw [jsMod_of_nonneg a _ ha, if_neg (not_lt.mpr (fmod_nonneg a _ hb))]
  · rw [jsMod_of_neg a _ ha hb0]
    by_cases hfr : Int.fract (a / RAIL_TOTAL_LENGTH) = 0
    · have h2 : Int.fract (-(a / RAIL_TOTAL_LENGTH)) = 0 := Int.fract_neg_eq_zero.mpr hfr
      rw [h2, mul_zero, neg_zero, if_neg (lt_irrefl (0 : ℚ)),
        fmod_eq_fract a _ hb0, hfr, mul_zero]
    · have h2 : Int.fract (-(a / RAIL_TOTAL_LENGTH)) = 1 - Int.fract (a / RAIL_TOTAL_LENGTH) :=
        Int.fract_neg hfr
      have hlt : 0 < 1 - Int.fract (a / RAIL_TOTAL_LENGTH) :=
        sub_pos.mpr (Int.fract_lt_one _)
      have hneg : -(RAIL_TOTAL_LENGTH * (1 - Int.fract (a / RAIL_TOTAL_LENGTH))) < 0 :=
        neg_neg_iff_pos.mpr (mul_pos hb hlt)
      rw [h2, if_pos hneg, fmod_eq_fract a _ hb0]
      ring

theorem fmod_add_period (a b : ℚ) (hb : b ≠ 0) : fmod (a + b) b = fmod a b := by
  unfold fmod
  rw [add_div, div_self hb, Int.floor_add_one]
  push_cast
  ring

theorem fmod_add_fmod (a c b : ℚ) (hb : b ≠ 0) :
    fmod (fmod a b + c) b = fmod (a + c) b := by
  unfold fmod
  have h1 : (a - b * ⌊a / b⌋ + c) / b = (a + c) / b - ((⌊a / b⌋ : ℤ) : ℚ) := by
    field_simp
    ring
  rw [h1, Int.floor_sub_int]
  push_cast
  ring

theorem wrapTrack_add_period (p : ℚ) :
    wrapTrack (p + RAIL_TOTAL_LENGTH) = wrapTrack p := by
  rw [wrapTrack_eq_fmod, wrapTrack_eq_fmod, fmod_add_period]
  norm_num [RAIL_TOTAL_LENGTH]

theorem getXY_add_period (p t : ℚ) :
    getXY (p + RAIL_TOTAL_LENGTH) t = getXY p t := by
  unfold getXY
  rw [wrapTrack_add_period]

/-- Claim C3: with lateralOffset 0, getXY is periodic with period
L = 2040 — locate(p, 0) = locate(p + L, 0) for every rational p — and the
adjacent segment formulas agree exactly, in both coordinates, at the four
segment boundaries p = 317.5, 702.5, 1337.5, 1722.5 and at the wrap point
p = 0 / L, so the four corners have no gap or overlap. -/
theorem getXY_periodic_and_corner_continuous :
    (∀ p : ℚ, getXY p 0 = getXY (p + RAIL_TOTAL_LENGTH) 0)
    ∧ ((topRightSeg s1 0).x = (rightSeg s1 0).x
        ∧ (topRightSeg s1 0).y = (rightSeg s1 0).y)
    ∧ ((rightSeg (s1 + s2) 0).x = (bottomSeg (s1 + s2) 0).x
        ∧ (rightSeg (s1 + s2) 0).y = (bottomSeg (s1 + s2) 0).y)
    ∧ ((bottomSeg (s1 + s2 + s3) 0).x = (leftSeg (s1 + s2 + s3) 0).x
        ∧ (bottomSeg (s1 + s2 + s3) 0).y = (leftSeg (s1 + s2 + s3) 0).y)
    ∧ ((leftSeg (s1 + s2 + s3 + s4) 0).x = (topLeftSeg (s1 + s2 + s3 + s4) 0).x
        ∧ (leftSeg (s1 + s2 + s3 + s4) 0).y = (topLeftSeg (s1 + s2 + s3 + s4) 0).y)
    ∧ ((topLeftSeg RAIL_TOTAL_LENGTH 0).x = (topRightSeg 0 0).x
        ∧ (topLeftSeg RAIL_TOTAL_LENGTH 0).y = (topRightSeg 0 0).y) := by
  refine ⟨fun p => (getXY_add_period p 0).symm, ?_, ?_, ?_, ?_, ?_⟩ <;>
    constructor <;>
      norm_num [topRightSeg, rightSeg, bottomSeg, leftSeg, topLeftSeg,
        s1, s2, s3, s4, RAIL_TOTAL_LENGTH]

/-- Claim C9 counterexample: at track position 400 (on the right segment) a
positive lateral offset of 1 gives x = 641.5, strictly less than the rail
coordinate 642.5 — the displacement is toward the loop interior, not away
from it; likewise at position 1000 (bottom segment) it gives y = 391.5 <
392.5. So the claimed outward direction (x > 642.5, y > 392.5) is false. -/
theorem getXY_positive_offset_not_outward :
    (getXY 400 1).segment = Segment.right
    ∧ ¬(642.5 < (getXY 400 1).x)
    ∧ (getXY 1000 1).segment = Segment.bottom
    ∧ ¬(392.5 < (getXY 1000 1).y) := by
  have h400 : wrapTrack 400 = 400 := by
    rw [wrapTrack_eq_fmod]
    unfold fmod
    norm_num [RAIL_TOTAL_LENGTH]
  have h1000 : wrapTrack 1000 = 1000 := by
    rw [wrapTrack_eq_fmod]
    unfold fmod
    norm_num [RAIL_TOTAL_LENGTH]
  unfold getXY
  rw [h400, h1000]
  norm_num [getXYaux, topRightSeg, rightSeg, bottomSeg, leftSeg, topLeftSeg,
    s1, s2, s3, s4]

/-- Claim C9 amended: a positive lateral offset displaces the projected
point toward the loop interior on the right and bottom segments: whenever
getXY lands on the right segment, x is strictly less than the rail
coordinate 642.5, and whenever it lands on the bottom segment, y is
strictly less than 392.5. -/
theorem getXY_positive_offset_inward (p t : ℚ) (ht : 0 < t) :
    ((getXY p t).segment = Segment.right → (getXY p t).x < 642.5)
    ∧ ((getXY p t).segment = Segment.bottom → (getXY p t).y < 392.5) := by
  unfold getXY getXYaux
  split_ifs <;>
    simp only [topRightSeg, rightSeg, bottomSeg, leftSeg, topLeftSeg] <;>
      constructor <;> intro hseg <;> simp_all <;> linarith

/-- Witness for the amended C9 theorem at p = 400, t = 1. -/
theorem getXY_positive_offset_inward_witness :
    ((getXY 400 1).segment = Segment.right → (getXY 400 1).x < 642.5)
    ∧ ((getXY 400 1).segment = Segment.bottom → (getXY 400 1).y < 392.5) :=
  getXY_positive_offset_inward 400 1 (by norm_num)

/-- Source `interface Electron`: scalar position along the rail, fixed
lateral lane, id, and the two idle-vibration parameters (never mutated). -/
structure Electron where
  trackPos : ℚ
  transPos : ℚ
  id : ℕ
  vibeDelay : ℚ
  vibeDuration : ℚ
deriving DecidableEq

/-- The per-electron update of the source animate callback:
`trackPos: (e.trackPos + ELECTRON_SPEED * deltaTime) % RAIL_TOTAL_LENGTH`,
all other fields copied. -/
def advanceElectron (deltaTime : ℚ) (e : Electron) : Electron :=
  { e with trackPos := jsMod (e.trackPos + ELECTRON_SPEED * deltaTime) RAIL_TOTAL_LENGTH }

/-- Source `animate`: one frame of the continuous driver with elapsed
deltaTime seconds; the electron list is mapped through advanceElectron only
when `isOpen && !isDepleted` (circuit closed and battery not exhausted),
otherwise it is left untouched. -/
def animateStep (isOpen isDepleted : Bool) (deltaTime : ℚ)
    (electrons : List Electron) : List Electron :=
  if isOpen && !isDepleted then electrons.map (advanceElectron deltaTime)
  else electrons

theorem advanceElectron_additive (e : Electron) (d1 d2 : ℚ) (he : 0 ≤ e.trackPos)
    (h1 : 0 ≤ d1) (h2 : 0 ≤ d2) :
    advanceElectron d2 (advanceElectron d1 e) = advanceElectron (d1 + d2) e := by
  have hL : (0 : ℚ) < RAIL_TOTAL_LENGTH := by norm_num [RAIL_TOTAL_LENGTH]
  have hs : (0 : ℚ) ≤ ELECTRON_SPEED := by norm_num [ELECTRON_SPEED]
  have ha : 0 ≤ e.trackPos + ELECTRON_SPEED * d1 :=
    add_nonneg he (mul_nonneg hs h1)
  have hb : 0 ≤ e.trackPos + ELECTRON_SPEED * (d1 + d2) :=
    add_nonneg he (mul_nonneg hs (add_nonneg h1 h2))
  unfold advanceElectron
  simp only [Electron.mk.injEq, and_true, true_and]
  rw [jsMod_of_nonneg _ _ ha,
    jsMod_of_nonneg _ _ (add_nonneg (fmod_nonneg _ _ hL) (mul_nonneg hs h2)),
    fmod_add_fmod _ _ _ (ne_of_gt hL), jsMod_of_nonneg _ _ hb]
  ring_nf

/-- Claim C4: with the circuit closed and not exhausted, the per-frame
advance is additive — advancing the pool by d1 then d2 equals one advance
by d1 + d2 — and each electron lands at
(initial + ELECTRON_SPEED * t) mod RAIL_TOTAL_LENGTH (floored modulus),
for nonnegative starting positions and positive frame deltas, in exact
rational arithmetic. -/
theorem animate_additivity (es : List Electron) (d1 d2 : ℚ)
    (hes : ∀ e ∈ es, 0 ≤ e.trackPos) (h1 : 0 < d1) (h2 : 0 < d2) :
    animateStep true false d2 (animateStep true false d1 es)
      = animateStep true false (d1 + d2) es
    ∧ ∀ e ∈ es, (advanceElectron (d1 + d2) e).trackPos
        = fmod (e.trackPos + ELECTRON_SPEED * (d1 + d2)) RAIL_TOTAL_LENGTH := by
  constructor
  · unfold animateStep
    simp only [Bool.and_self, Bool.not_false, if_pos, List.map_map]
    exact List.map_congr_left fun e he =>
      advanceElectron_additive e d1 d2 (hes e he) h1.le h2.le
  · intro e he
    have ha : 0 ≤ e.trackPos + ELECTRON_SPEED * (d1 + d2) := by
      have hs : (0 : ℚ) ≤ ELECTRON_SPEED := by norm_num [ELECTRON_SPEED]
      exact add_nonneg (hes e he) (mul_nonneg hs (by linarith))
    unfold advanceElectron
    simp only
    rw [jsMod_of_nonneg _ _ ha]

/-- Witness for C4 at a one-electron pool with trackPos 100 and frame
deltas 1 and 2. -/
theorem animate_additivity_witness :
    animateStep true false 2 (animateStep true false 1 [⟨100, 3, 7, 0, 1⟩])
      = animateStep true false (1 + 2) [⟨100, 3, 7, 0, 1⟩] :=
  (animate_additivity [⟨100, 3, 7, 0, 1⟩] 1 2
    (by intro e he; rw [List.mem_singleton] at he; rw [he]; norm_num)
    (by norm_num) (by norm_num)).1

/-- Claim C5: whenever the circuit is open or the battery is exhausted, any
sequence of per-frame animate calls, with arbitrary frame deltas, returns
the electron list unchanged — every trackPos and transPos is exactly the
same, with no drift. -/
theorem animate_frozen (isOpen isDepleted : Bool) (es : List Electron)
    (h : isOpen = false ∨ isDepleted = true) (ds : List ℚ) :
    ds.foldl (fun cur d => animateStep isOpen isDepleted d cur) es = es := by
  have hstep : ∀ (d : ℚ) (cur : List Electron),
      animateStep isOpen isDepleted d cur = cur := by
    intro d cur
    unfold animateStep
    rcases h with h | h <;> rw [h] <;> simp
  induction ds generalizing es with
  | nil => rfl
  | cons d ds ih => rw [List.foldl_cons, hstep]; exact ih es

/-- Witness for C5: with the circuit open, two frames leave a concrete
one-electron pool unchanged. -/
theorem animate_frozen_witness :
    [(1 : ℚ), 2].foldl (fun cur d => animateStep false false d cur)
      [⟨100, 3, 7, 0, 1⟩] = [⟨100, 3, 7, 0, 1⟩] :=
  animate_frozen false false [⟨100, 3, 7, 0, 1⟩] (Or.inl rfl) [1, 2]

/-- The four pieces of battery/circuit state of the source component, in
useState order: `isOpen` (the circuit-closed flag toggled by the user),
`isDepleted`, `electrolyteH`, `ionsCount`. -/
structure BatteryState where
  isOpen : Bool
  isDepleted : Bool
  electrolyteH : ℚ
  ionsCount : ℚ
deriving DecidableEq

/-- Source `resetBattery`: sets electrolyteH := 75, ionsCount := 75,
isDepleted := false, isOpen := false. -/
def resetBattery (_s : BatteryState) : BatteryState :=
  { isOpen := false, isDepleted := false, electrolyteH := 75, ionsCount := 75 }

/-- Source `handleToggle`: `if (isDepleted) resetBattery(); else
setIsOpen(!isOpen);`. -/
def handleToggle (s : BatteryState) : BatteryState :=
  if s.isDepleted then resetBattery s else { s with isOpen := !s.isOpen }

/-- Source battery depletion interval body:
`electrolyteH := max 0 (h - ELECTROLYTE_DEPLETION_RATE)`, with
`isDepleted := true` exactly when the new level is 0, and
`ionsCount := max 0 (c - IONS_DEPLETION_RATE)`. The guard
`isOpen && !isDepleted` models the interval being installed only in the
Closed_Active state and cleared synchronously on leaving it, so no tick
fires outside that state. -/
def batteryDepletionTick (s : BatteryState) : BatteryState :=
  if s.isOpen && !s.isDepleted then
    let newH := max 0 (s.electrolyteH - ELECTROLYTE_DEPLETION_RATE)
    { s with electrolyteH := newH,
             isDepleted := if newH = 0 then true else s.isDepleted,
             ionsCount := max 0 (s.ionsCount - IONS_DEPLETION_RATE) }
  else s

/-- Claim C1 counterexample: in the exhausted state
⟨isOpen := true, isDepleted := true, 0, 0⟩, handleToggle does not leave
the state unchanged — it resets the battery, so the claimed no-op is
false. -/
theorem handleToggle_when_depleted_not_noop :
    (BatteryState.mk true true 0 0).isDepleted = true
    ∧ handleToggle (BatteryState.mk true true 0 0) ≠ BatteryState.mk true true 0 0 := by
  refine ⟨rfl, fun h => ?_⟩
  have h2 := congrArg BatteryState.isDepleted h
  simp [handleToggle, resetBattery] at h2

/-- Claim C1 amended: whenever isDepleted is true, handleToggle invokes
resetBattery, yielding exactly the freshly reset state
{isOpen := false, isDepleted := false, electrolyteH := 75,
ionsCount := 75} — a full recharge, not a no-op. -/
theorem handleToggle_when_depleted_resets (s : BatteryState)
    (h : s.isDepleted = true) :
    handleToggle s
      = { isOpen := false, isDepleted := false, electrolyteH := 75, ionsCount := 75 } := by
  simp [handleToggle, h, resetBattery]

/-- Witness for the amended C1 theorem at the exhausted state
⟨true, true, 0, 0⟩. -/
theorem handleToggle_when_depleted_resets_witness :
    handleToggle ⟨true, true, 0, 0⟩
      = { isOpen := false, isDepleted := false, electrolyteH := 75, ionsCount := 75 } :=
  handleToggle_when_depleted_resets ⟨true, true, 0, 0⟩ rfl

/-- Claim C6: resetBattery, from every state whatsoever, yields
electrolyteH = 75, ionsCount = 75, isDepleted = false, isOpen = false. -/
theorem resetBattery_from_any_state (s : BatteryState) :
    (resetBattery s).electrolyteH = 75
    ∧ (resetBattery s).ionsCount = 75
    ∧ (resetBattery s).isDepleted = false
    ∧ (resetBattery s).isOpen = false :=
  ⟨rfl, rfl, rfl, rfl⟩

theorem depletion_trace :
    batteryDepletionTick^[15] (⟨true, false, 75, 75⟩ : BatteryState)
      = ⟨true, true, 0, 0⟩ := by
  have E : ∀ (n : ℕ) (s : BatteryState),
      batteryDepletionTick^[n + 1] s = batteryDepletionTick^[n] (batteryDepletionTick s) :=
    fun n s => Function.iterate_succ_apply _ n s
  have t1 : batteryDepletionTick ⟨true, false, 75, 75⟩
      = ⟨true, false, 70, 70⟩ := by
    norm_num [batteryDepletionTick, max_def, ELECTROLYTE_DEPLETION_RATE, IONS_DEPLETION_RATE]
  have t2 : batteryDepletionTick ⟨true, false, 70, 70⟩
      = ⟨true, false, 65, 65⟩ := by
    norm_num [batteryDepletionTick, max_def, ELECTROLYTE_DEPLETION_RATE, IONS_DEPLETION_RATE]
  have t3 : batteryDepletionTick ⟨true, false, 65, 65⟩
      = ⟨true, false, 60, 60⟩ := by
    norm_num [batteryDepletionTick, max_def, ELECTROLYTE_DEPLETION_RATE, IONS_DEPLETION_RATE]
  have t4 : batteryDepletionTick ⟨true, false, 60, 60⟩
      = ⟨true, false, 55, 55⟩ := by
    norm_num [batteryDepletionTick, max_def, ELECTROLYTE_DEPLETION_RATE, IONS_DEPLETION_RATE]
  have t5 : batteryDepletionTick ⟨true, false, 55, 55⟩
      = ⟨true, false, 50, 50⟩ := by
    norm_num [batteryDepletionTick, max_def, ELECTROLYTE_DEPLETION_RATE, IONS_DEPLETION_RATE]
  have t6 : batteryDepletionTick ⟨true, false, 50, 50⟩
      = ⟨true, false, 45, 45⟩ := by
    norm_num [batteryDepletionTick, max_def, ELECTROLYTE_DEPLETION_RATE, IONS_DEPLETION_RATE]
  have t7 : batteryDepletionTick ⟨true, false, 45, 45⟩
      = ⟨true, false, 40, 40⟩ := by
    norm_num [batteryDepletionTick, max_def, ELECTROLYTE_DEPLETION_RATE, IONS_DEPLETION_RATE]
  have t8 : batteryDepletionTick ⟨true, false, 40, 40⟩
      = ⟨true, false, 35, 35⟩ := by
    norm_num [batteryDepletionTick, max_def, ELECTROLYTE_DEPLETION_RATE, IONS_DEPLETION_RATE]
  have t9 : batteryDepletionTick ⟨true, false, 35, 35⟩
      = ⟨true, false, 30, 30⟩ := by
    norm_num [batteryDepletionTick, max_def, ELECTROLYTE_DEPLETION_RATE, IONS_DEPLETION_RATE]
  have t10 : batteryDepletionTick ⟨true, false, 30, 30⟩
      = ⟨true, false, 25, 25⟩ := by
    norm_num [batteryDepletionTick, max_def, ELECTROLYTE_DEPLETION_RATE, IONS_DEPLETION_RATE]
  have t11 : batteryDepletionTick ⟨true, false, 25, 25⟩
      = ⟨true, false, 20, 20⟩ := by
    norm_num [batteryDepletionTick, max_def, ELECTROLYTE_DEPLETION_RATE, IONS_DEPLETION_RATE]
  have t12 : batteryDepletionTick ⟨true, false, 20, 20⟩
      = ⟨true, false, 15, 15⟩ := by
    norm_num [batteryDepletionTick, max_def, ELECTROLYTE_DEPLETION_RATE, IONS_DEPLETION_RATE]
  have t13 : batteryDepletionTick ⟨true, false, 15, 15⟩
      = ⟨true, false, 10, 10⟩ := by
    norm_num [batteryDepletionTick, max_def, ELECTROLYTE_DEPLETION_RATE, IONS_DEPLETION_RATE]
  have t14 : batteryDepletionTick ⟨true, false, 10, 10⟩
      = ⟨true, false, 5, 5⟩ := by
    norm_num [batteryDepletionTick, max_def, ELECTROLYTE_DEPLETION_RATE, IONS_DEPLETION_RATE]
  have t15 : batteryDepletionTick ⟨true, false, 5, 5⟩
      = ⟨true, true, 0, 0⟩ := by
    norm_num [batteryDepletionTick, max_def, ELECTROLYTE_DEPLETION_RATE, IONS_DEPLETION_RATE]
  calc batteryDepletionTick^[15] (⟨true, false, 75, 75⟩ : BatteryState)
      _ = batteryDepletionTick^[14] (batteryDepletionTick ⟨true, false, 75, 75⟩) := E 14 _
      _ = batteryDepletionTick^[14] ⟨true, false, 70, 70⟩ := by rw [t1]
      _ = batteryDepletionTick^[13] (batteryDepletionTick ⟨true, false, 70, 70⟩) := E 13 _
      _ = batteryDepletionTick^[13] ⟨true, false, 65, 65⟩ := by rw [t2]
      _ = batteryDepletionTick^[12] (batteryDepletionTick ⟨true, false, 65, 65⟩) := E 12 _
      _ = batteryDepletionTick^[12] ⟨true, false, 60, 60⟩ := by rw [t3]
      _ = batteryDepletionTick^[11] (batteryDepletionTick ⟨true, false, 60, 60⟩) := E 11 _
      _ = batteryDepletionTick^[11] ⟨true, false, 55, 55⟩ := by rw [t4]
      _ = batteryDepletionTick^[10] (batteryDepletionTick ⟨true, false, 55, 55⟩) := E 10 _
      _ = batteryDepletionTick^[10] ⟨true, false, 50, 50⟩ := by rw [t5]
      _ = batteryDepletionTick^[9] (batteryDepletionTick ⟨true, false, 50, 50⟩) := E 9 _
      _ = batteryDepletionTick^[9] ⟨true, false, 45, 45⟩ := by rw [t6]
      _ = batteryDepletionTick^[8] (batteryDepletionTick ⟨true, false, 45, 45⟩) := E 8 _
      _ = batteryDepletionTick^[8] ⟨true, false, 40, 40⟩ := by rw [t7]
      _ = batteryDepletionTick^[7] (batteryDepletionTick ⟨true, false, 40, 40⟩) := E 7 _
      _ = batteryDepletionTick^[7] ⟨true, false, 35, 35⟩ := by rw [t8]
      _ = batteryDepletionTick^[6] (batteryDepletionTick ⟨true, false, 35, 35⟩) := E 6 _
      _ = batteryDepletionTick^[6] ⟨true, false, 30, 30⟩ := by rw [t9]
      _ = batteryDepletionTick^[5] (batteryDepletionTick ⟨true, false, 30, 30⟩) := E 5 _
      _ = batteryDepletionTick^[5] ⟨true, false, 25, 25⟩ := by rw [t10]
      _ = batteryDepletionTick^[4] (batteryDepletionTick ⟨true, false, 25, 25⟩) := E 4 _
      _ = batteryDepletionTick^[4] ⟨true, false, 20, 20⟩ := by rw [t11]
      _ = batteryDepletionTick^[3] (batteryDepletionTick ⟨true, false, 20, 20⟩) := E 3 _
      _ = batteryDepletionTick^[3] ⟨true, false, 15, 15⟩ := by rw [t12]
      _ = batteryDepletionTick^[2] (batteryDepletionTick ⟨true, false, 15, 15⟩) := E 2 _
      _ = batteryDepletionTick^[2] ⟨true, false, 10, 10⟩ := by rw [t13]
      _ = batteryDepletionTick^[1] (batteryDepletionTick ⟨true, false, 10, 10⟩) := E 1 _
      _ = batteryDepletionTick^[1] ⟨true, false, 5, 5⟩ := by rw [t14]
      _ = batteryDepletionTick^[0] (batteryDepletionTick ⟨true, false, 5, 5⟩) := E 0 _
      _ = batteryDepletionTick^[0] ⟨true, true, 0, 0⟩ := by rw [t15]
      _ = (⟨true, true, 0, 0⟩ : BatteryState) := Function.iterate_zero_apply _ _
/-- Claim C2: while the circuit is closed and the battery not exhausted,
one depletion tick sets electrolyteH to max 0 (electrolyteH - 5) and
ionsCount to max 0 (ionsCount - 5); from the initial closed state
⟨true, false, 75, 75⟩, exactly 15 ticks bring both quantities to 0 with
isDepleted = true; and from that exhausted state any further number of
ticks changes nothing, so both values stay clamped at 0. -/
theorem depletion_schedule :
    (∀ s : BatteryState, s.isOpen = true → s.isDepleted = false →
        (batteryDepletionTick s).electrolyteH
            = max 0 (s.electrolyteH - ELECTROLYTE_DEPLETION_RATE)
        ∧ (batteryDepletionTick s).ionsCount
            = max 0 (s.ionsCount - IONS_DEPLETION_RATE))
    ∧ batteryDepletionTick^[15] (⟨true, false, 75, 75⟩ : BatteryState)
        = ⟨true, true, 0, 0⟩
    ∧ ∀ n : ℕ, batteryDepletionTick^[n] (⟨true, true, 0, 0⟩ : BatteryState)
        = ⟨true, true, 0, 0⟩ := by
  refine ⟨?_, depletion_trace, ?_⟩
  · intro s h1 h2
    unfold batteryDepletionTick
    rw [h1, h2]
    exact ⟨rfl, rfl⟩
  · intro n
    have hfix : batteryDepletionTick (⟨true, true, 0, 0⟩ : BatteryState)
        = ⟨true, true, 0, 0⟩ := by
      norm_num [batteryDepletionTick]
    exact Function.iterate_fixed hfix n

/-- Witness for C2: the per-tick equations instantiated at the initial
closed state ⟨true, false, 75, 75⟩. -/
theorem depletion_schedule_witness :
    (batteryDepletionTick ⟨true, false, 75, 75⟩).electrolyteH
        = max 0 (75 - ELECTROLYTE_DEPLETION_RATE)
    ∧ (batteryDepletionTick ⟨true, false, 75, 75⟩).ionsCount
        = max 0 (75 - IONS_DEPLETION_RATE) :=
  depletion_schedule.1 ⟨true, false, 75, 75⟩ rfl rfl

/-- The three user/timer events that mutate the battery state in the
source: the toggle button, a depletion interval tick, and resetBattery. -/
inductive BatteryOp
  | toggle
  | tick
  | reset

/-- Apply one battery event. -/
def applyBatteryOp (s : BatteryState) : BatteryOp → BatteryState
  | BatteryOp.toggle => handleToggle s
  | BatteryOp.tick => batteryDepletionTick s
  | BatteryOp.reset => resetBattery s

/-- Source initial useState values: isOpen = false, isDepleted = false,
electrolyteH = 75, ionsCount = 75. -/
def initialBattery : BatteryState :=
  { isOpen := false, isDepleted := false, electrolyteH := 75, ionsCount := 75 }

theorem applyBatteryOp_preserves_level_eq (s : BatteryState) (op : BatteryOp)
    (h : s.electrolyteH = s.ionsCount) :
    (applyBatteryOp s op).electrolyteH = (applyBatteryOp s op).ionsCount := by
  cases op with
  | toggle =>
    unfold applyBatteryOp handleToggle resetBattery
    split_ifs <;> simpa using h
  | tick =>
    unfold applyBatteryOp batteryDepletionTick
    split_ifs <;> simp [h, ELECTROLYTE_DEPLETION_RATE, IONS_DEPLETION_RATE]
  | reset => rfl

/-- Claim C10: every state reachable from the initial state by any
sequence of toggles, depletion ticks and resets has
electrolyteH = ionsCount — the two depleting quantities start equal at 75,
are decremented and clamped together, and are restored together, so the
fill height and the ion-glyph count always encode the same value. -/
theorem electrolyte_eq_ions_invariant (ops : List BatteryOp) :
    (ops.foldl applyBatteryOp initialBattery).electrolyteH
      = (ops.foldl applyBatteryOp initialBattery).ionsCount := by
  have H : ∀ s : BatteryState, s.electrolyteH = s.ionsCount →
      (ops.foldl applyBatteryOp s).electrolyteH
        = (ops.foldl applyBatteryOp s).ionsCount := by
    induction ops with
    | nil => intro s h; exact h
    | cons op ops ih =>
      intro s h
      rw [List.foldl_cons]
      exact ih _ (applyBatteryOp_preserves_level_eq s op h)
  exact H initialBattery rfl

/-- A battery-internal spawned electron, source state `batElectrons` entry:
random id, spawn point (x, y) inside the battery sub-region, and the
`Date.now()` birth timestamp in milliseconds. -/
structure BatElectron where
  x : ℚ
  y : ℚ
  id : ℚ
  start : ℚ
deriving DecidableEq

/-- Source render expression
`const progress = (Date.now() - be.start) / 1000;` — the elapsed-time
fraction of the 1000 ms lifetime, computed with no clamping. -/
def progress (now : ℚ) (be : BatElectron) : ℚ := (now - be.start) / 1000

/-- Source render expression for the interpolated x coordinate:
`be.x - 350 + (50 - (be.x - 350)) * progress`. -/
def currX (now : ℚ) (be : BatElectron) : ℚ :=
  be.x - 350 + (50 - (be.x - 350)) * progress now be

/-- Source render expression for the interpolated y coordinate:
`be.y + (37.5 - be.y) * progress`. -/
def currY (now : ℚ) (be : BatElectron) : ℚ :=
  be.y + (37.5 - be.y) * progress now be

/-- Source render expression `opacity: 1 - progress`. -/
def batOpacity (now : ℚ) (be : BatElectron) : ℚ := 1 - progress now be

/-- Claim C7 counterexample: the rendered progress is not clamped to
[0, 1]. For an entry born at time 0 that is still present at render time
1500 ms (a removal 500 ms late), progress = 3/2 > 1 and the rendered
opacity is -1/2 < 0, and currY overshoots the target y = 37.5. -/
theorem progress_not_clamped :
    1 < progress 1500 ⟨350, 0, 0, 0⟩
    ∧ batOpacity 1500 ⟨350, 0, 0, 0⟩ < 0
    ∧ 37.5 < currY 1500 ⟨350, 0, 0, 0⟩ := by
  norm_num [progress, batOpacity, currY]

/-- Claim C7 amended: progress = (now - birth) / 1000 is computed without
any clamp. Within the entry lifetime — birth ≤ now ≤ birth + 1000 — it
does lie in [0, 1] and the opacity lies in [0, 1]; but for a render
strictly later than birth + 1000 (a late removal), progress exceeds 1 and
the opacity is negative. -/
theorem progress_bounds (now : ℚ) (be : BatElectron) :
    (be.start ≤ now → now ≤ be.start + 1000 →
        0 ≤ progress now be ∧ progress now be ≤ 1
        ∧ 0 ≤ batOpacity now be ∧ batOpacity now be ≤ 1)
    ∧ (be.start + 1000 < now →
        1 < progress now be ∧ batOpacity now be < 0) := by
  simp only [batOpacity, progress]
  constructor
  · intro h1 h2
    have hp0 : (0 : ℚ) ≤ (now - be.start) / 1000 :=
      div_nonneg (by linarith) (by norm_num)
    have hp1 : (now - be.start) / 1000 ≤ 1 := by
      rw [div_le_one (by norm_num)]
      linarith
    exact ⟨hp0, hp1, by linarith, by linarith⟩
  · intro h
    have hp : 1 < (now - be.start) / 1000 := by
      rw [lt_div_iff₀ (by norm_num)]
      linarith
    exact ⟨hp, by linarith⟩

/-- Witness for the amended C7 theorem: an entry born at 0 rendered at
500 ms is inside its lifetime and its progress and opacity bounds hold. -/
theorem progress_bounds_witness :
    0 ≤ progress 500 ⟨350, 0, 0, 0⟩ ∧ progress 500 ⟨350, 0, 0, 0⟩ ≤ 1
    ∧ 0 ≤ batOpacity 500 ⟨350, 0, 0, 0⟩ ∧ batOpacity 500 ⟨350, 0, 0, 0⟩ ≤ 1 :=
  (progress_bounds 500 ⟨350, 0, 0, 0⟩).1 (by norm_num) (by norm_num)

theorem wrapTrack_of_lt (p : ℚ) (h0 : 0 ≤ p) (h1 : p < RAIL_TOTAL_LENGTH) :
    wrapTrack p = p := by
  have hL : (0 : ℚ) < RAIL_TOTAL_LENGTH := by norm_num [RAIL_TOTAL_LENGTH]
  rw [wrapTrack_eq_fmod]
  unfold fmod
  rw [Int.floor_eq_zero_iff.mpr ⟨div_nonneg h0 hL.le, (div_lt_one hL).mpr h1⟩]
  norm_num

theorem getXY_of_lt (p t : ℚ) (h0 : 0 ≤ p) (h1 : p < RAIL_TOTAL_LENGTH) :
    getXY p t = getXYaux p t := by
  unfold getXY
  rw [wrapTrack_of_lt p h0 h1]

/-- The loop counter values taken by the source field-line loop
`for (let p = 0; p < RAIL_TOTAL_LENGTH; p += 40)`: p = 0, 40, ..., 2000,
that is, ceil(2040 / 40) = 51 candidate sample positions. -/
def fieldPositions : List ℚ := (List.range 51).map (fun i => 40 * (i : ℚ))

/-- The battery-overlap exclusion test of the source field-line loop:
`pos.segment === 'top' && pos.x >= 250 && pos.x <= 400` for
pos = getXY(p, 0). -/
def fieldLineExcluded (p : ℚ) : Bool :=
  decide ((getXY p 0).segment = Segment.top)
    && decide (250 ≤ (getXY p 0).x) && decide ((getXY p 0).x ≤ 400)

/-- Source `fieldLinesGenerated`: project every candidate position with
lateral offset 0 and keep the point unless the exclusion test fires. -/
def fieldLinesGenerated : List Point :=
  fieldPositions.filterMap (fun p =>
    if fieldLineExcluded p then none else some (getXY p 0))

/-- Claim C8: the field-line sampling scans the 51 candidate positions
p = 0, 40, ..., 2000; the battery-exclusion test fires at exactly the
candidates 0, 40 and 2000 (the only ones projected onto the top segment
with x between 250 and 400), and the generated marker list therefore has
exactly 48 entries. -/
theorem fieldLines_sampling :
    fieldPositions.length = 51
    ∧ fieldPositions.filter (fun p => fieldLineExcluded p) = [0, 40, 2000]
    ∧ fieldLinesGenerated.length = 48 := by
  have hr : List.range 51 = [0, 1, 2, 3, 4, 5, 6, 7, 8, 9, 10, 11, 12, 13, 14, 15, 16, 17, 18, 19, 20, 21, 22, 23, 24, 25, 26, 27, 28, 29, 30, 31, 32, 33, 34, 35, 36, 37, 38, 39, 40, 41, 42, 43, 44, 45, 46, 47, 48, 49, 50] := rfl
  have hfp : fieldPositions = [0, 40, 80, 120, 160, 200, 240, 280, 320, 360, 400, 440, 480, 520, 560, 600, 640, 680, 720, 760, 800, 840, 880, 920, 960, 1000, 1040, 1080, 1120, 1160, 1200, 1240, 1280, 1320, 1360, 1400, 1440, 1480, 1520, 1560, 1600, 1640, 1680, 1720, 1760, 1800, 1840, 1880, 1920, 1960, 2000] := by
    norm_num [fieldPositions, hr]
  have e0 : fieldLineExcluded 0 = true := by
    norm_num [fieldLineExcluded, getXY_of_lt, getXYaux, topRightSeg, rightSeg,
      bottomSeg, leftSeg, topLeftSeg, s1, s2, s3, s4, RAIL_TOTAL_LENGTH] <;> decide
  have e1 : fieldLineExcluded 40 = true := by
    norm_num [fieldLineExcluded, getXY_of_lt, getXYaux, topRightSeg, rightSeg,
      bottomSeg, leftSeg, topLeftSeg, s1, s2, s3, s4, RAIL_TOTAL_LENGTH] <;> decide
  have e2 : fieldLineExcluded 80 = false := by
    norm_num [fieldLineExcluded, getXY_of_lt, getXYaux, topRightSeg, rightSeg,
      bottomSeg, leftSeg, topLeftSeg, s1, s2, s3, s4, RAIL_TOTAL_LENGTH] <;> decide
  have e3 : fieldLineExcluded 120 = false := by
    norm_num [fieldLineExcluded, getXY_of_lt, getXYaux, topRightSeg, rightSeg,
      bottomSeg, leftSeg, topLeftSeg, s1, s2, s3, s4, RAIL_TOTAL_LENGTH] <;> decide
  have e4 : fieldLineExcluded 160 = false := by
    norm_num [fieldLineExcluded, getXY_of_lt, getXYaux, topRightSeg, rightSeg,
      bottomSeg, leftSeg, topLeftSeg, s1, s2, s3, s4, RAIL_TOTAL_LENGTH] <;> decide
  have e5 : fieldLineExcluded 200 = false := by
    norm_num [fieldLineExcluded, getXY_of_lt, getXYaux, topRightSeg, rightSeg,
      bottomSeg, leftSeg, topLeftSeg, s1, s2, s3, s4, RAIL_TOTAL_LENGTH] <;> decide
  have e6 : fieldLineExcluded 240 = false := by
    norm_num [fieldLineExcluded, getXY_of_lt, getXYaux, topRightSeg, rightSeg,
      bottomSeg, leftSeg, topLeftSeg, s1, s2, s3, s4, RAIL_TOTAL_LENGTH] <;> decide
  have e7 : fieldLineExcluded 280 = false := by
    norm_num [fieldLineExcluded, getXY_of_lt, getXYaux, topRightSeg, rightSeg,
      bottomSeg, leftSeg, topLeftSeg, s1, s2, s3, s4, RAIL_TOTAL_LENGTH] <;> decide
  have e8 : fieldLineExcluded 320 = false := by
    norm_num [fieldLineExcluded, getXY_of_lt, getXYaux, topRightSeg, rightSeg,
      bottomSeg, leftSeg, topLeftSeg, s1, s2, s3, s4, RAIL_TOTAL_LENGTH] <;> decide
  have e9 : fieldLineExcluded 360 = false := by
    norm_num [fieldLineExcluded, getXY_of_lt, getXYaux, topRightSeg, rightSeg,
      bottomSeg, leftSeg, topLeftSeg, s1, s2, s3, s4, RAIL_TOTAL_LENGTH] <;> decide
  have e10 : fieldLineExcluded 400 = false := by
    norm_num [fieldLineExcluded, getXY_of_lt, getXYaux, topRightSeg, rightSeg,
      bottomSeg, leftSeg, topLeftSeg, s1, s2, s3, s4, RAIL_TOTAL_LENGTH] <;> decide
  have e11 : fieldLineExcluded 440 = false := by
    norm_num [fieldLineExcluded, getXY_of_lt, getXYaux, topRightSeg, rightSeg,
      bottomSeg, leftSeg, topLeftSeg, s1, s2, s3, s4, RAIL_TOTAL_LENGTH] <;> decide
  have e12 : fieldLineExcluded 480 = false := by
    norm_num [fieldLineExcluded, getXY_of_lt, getXYaux, topRightSeg, rightSeg,
      bottomSeg, leftSeg, topLeftSeg, s1, s2, s3, s4, RAIL_TOTAL_LENGTH] <;> decide
  have e13 : fieldLineExcluded 520 = false := by
    norm_num [fieldLineExcluded, getXY_of_lt, getXYaux, topRightSeg, rightSeg,
      bottomSeg, leftSeg, topLeftSeg, s1, s2, s3, s4, RAIL_TOTAL_LENGTH] <;> decide
  have e14 : fieldLineExcluded 560 = false := by
    norm_num [fieldLineExcluded, getXY_of_lt, getXYaux, topRightSeg, rightSeg,
      bottomSeg, leftSeg, topLeftSeg, s1, s2, s3, s4, RAIL_TOTAL_LENGTH] <;> decide
  have e15 : fieldLineExcluded 600 = false := by
    norm_num [fieldLineExcluded, getXY_of_lt, getXYaux, topRightSeg, rightSeg,
      bottomSeg, leftSeg, topLeftSeg, s1, s2, s3, s4, RAIL_TOTAL_LENGTH] <;> decide
  have e16 : fieldLineExcluded 640 = false := by
    norm_num [fieldLineExcluded, getXY_of_lt, getXYaux, topRightSeg, rightSeg,
      bottomSeg, leftSeg, topLeftSeg, s1, s2, s3, s4, RAIL_TOTAL_LENGTH] <;> decide
  have e17 : fieldLineExcluded 680 = false := by
    norm_num [fieldLineExcluded, getXY_of_lt, getXYaux, topRightSeg, rightSeg,
      bottomSeg, leftSeg, topLeftSeg, s1, s2, s3, s4, RAIL_TOTAL_LENGTH] <;> decide
  have e18 : fieldLineExcluded 720 = false := by
    norm_num [fieldLineExcluded, getXY_of_lt, getXYaux, topRightSeg, rightSeg,
      bottomSeg, leftSeg, topLeftSeg, s1, s2, s3, s4, RAIL_TOTAL_LENGTH] <;> decide
  have e19 : fieldLineExcluded 760 = false := by
    norm_num [fieldLineExcluded, getXY_of_lt, getXYaux, topRightSeg, rightSeg,
      bottomSeg, leftSeg, topLeftSeg, s1, s2, s3, s4, RAIL_TOTAL_LENGTH] <;> decide
  have e20 : fieldLineExcluded 800 = false := by
    norm_num [fieldLineExcluded, getXY_of_lt, getXYaux, topRightSeg, rightSeg,
      bottomSeg, leftSeg, topLeftSeg, s1, s2, s3, s4, RAIL_TOTAL_LENGTH] <;> decide
  have e21 : fieldLineExcluded 840 = false := by
    norm_num [fieldLineExcluded, getXY_of_lt, getXYaux, topRightSeg, rightSeg,
      bottomSeg, leftSeg, topLeftSeg, s1, s2, s3, s4, RAIL_TOTAL_LENGTH] <;> decide
  have e22 : fieldLineExcluded 880 = false := by
    norm_num [fieldLineExcluded, getXY_of_lt, getXYaux, topRightSeg, rightSeg,
      bottomSeg, leftSeg, topLeftSeg, s1, s2, s3, s4, RAIL_TOTAL_LENGTH] <;> decide
  have e23 : fieldLineExcluded 920 = false := by
    norm_num [fieldLineExcluded, getXY_of_lt, getXYaux, topRightSeg, rightSeg,
      bottomSeg, leftSeg, topLeftSeg, s1, s2, s3, s4, RAIL_TOTAL_LENGTH] <;> decide
  have e24 : fieldLineExcluded 960 = false := by
    norm_num [fieldLineExcluded, getXY_of_lt, getXYaux, topRightSeg, rightSeg,
      bottomSeg, leftSeg, topLeftSeg, s1, s2, s3, s4, RAIL_TOTAL_LENGTH] <;> decide
  have e25 : fieldLineExcluded 1000 = false := by
    norm_num [fieldLineExcluded, getXY_of_lt, getXYaux, topRightSeg, rightSeg,
      bottomSeg, leftSeg, topLeftSeg, s1, s2, s3, s4, RAIL_TOTAL_LENGTH] <;> decide
  have e26 : fieldLineExcluded 1040 = false := by
    norm_num [fieldLineExcluded, getXY_of_lt, getXYaux, topRightSeg, rightSeg,
      bottomSeg, leftSeg, topLeftSeg, s1, s2, s3, s4, RAIL_TOTAL_LENGTH] <;> decide
  have e27 : fieldLineExcluded 1080 = false := by
    norm_num [fieldLineExcluded, getXY_of_lt, getXYaux, topRightSeg, rightSeg,
      bottomSeg, leftSeg, topLeftSeg, s1, s2, s3, s4, RAIL_TOTAL_LENGTH] <;> decide
  have e28 : fieldLineExcluded 1120 = false := by
    norm_num [fieldLineExcluded, getXY_of_lt, getXYaux, topRightSeg, rightSeg,
      bottomSeg, leftSeg, topLeftSeg, s1, s2, s3, s4, RAIL_TOTAL_LENGTH] <;> decide
  have e29 : fieldLineExcluded 1160 = false := by
    norm_num [fieldLineExcluded, getXY_of_lt, getXYaux, topRightSeg, rightSeg,
      bottomSeg, leftSeg, topLeftSeg, s1, s2, s3, s4, RAIL_TOTAL_LENGTH] <;> decide
  have e30 : fieldLineExcluded 1200 = false := by
    norm_num [fieldLineExcluded, getXY_of_lt, getXYaux, topRightSeg, rightSeg,
      bottomSeg, leftSeg, topLeftSeg, s1, s2, s3, s4, RAIL_TOTAL_LENGTH] <;> decide
  have e31 : fieldLineExcluded 1240 = false := by
    norm_num [fieldLineExcluded, getXY_of_lt, getXYaux, topRightSeg, rightSeg,
      bottomSeg, leftSeg, topLeftSeg, s1, s2, s3, s4, RAIL_TOTAL_LENGTH] <;> decide
  have e32 : fieldLineExcluded 1280 = false := by
    norm_num [fieldLineExcluded, getXY_of_lt, getXYaux, topRightSeg, rightSeg,
      bottomSeg, leftSeg, topLeftSeg, s1, s2, s3, s4, RAIL_TOTAL_LENGTH] <;> decide
  have e33 : fieldLineExcluded 1320 = false := by
    norm_num [fieldLineExcluded, getXY_of_lt, getXYaux, topRightSeg, rightSeg,
      bottomSeg, leftSeg, topLeftSeg, s1, s2, s3, s4, RAIL_TOTAL_LENGTH] <;> decide
  have e34 : fieldLineExcluded 1360 = false := by
    norm_num [fieldLineExcluded, getXY_of_lt, getXYaux, topRightSeg, rightSeg,
      bottomSeg, leftSeg, topLeftSeg, s1, s2, s3, s4, RAIL_TOTAL_LENGTH] <;> decide
  have e35 : fieldLineExcluded 1400 = false := by
    norm_num [fieldLineExcluded, getXY_of_lt, getXYaux, topRightSeg, rightSeg,
      bottomSeg, leftSeg, topLeftSeg, s1, s2, s3, s4, RAIL_TOTAL_LENGTH] <;> decide
  have e36 : fieldLineExcluded 1440 = false := by
    norm_num [fieldLineExcluded, getXY_of_lt, getXYaux, topRightSeg, rightSeg,
      bottomSeg, leftSeg, topLeftSeg, s1, s2, s3, s4, RAIL_TOTAL_LENGTH] <;> decide
  have e37 : fieldLineExcluded 1480 = false := by
    norm_num [fieldLineExcluded, getXY_of_lt, getXYaux, topRightSeg, rightSeg,
      bottomSeg, leftSeg, topLeftSeg, s1, s2, s3, s4, RAIL_TOTAL_LENGTH] <;> decide
  have e38 : fieldLineExcluded 1520 = false := by
    norm_num [fieldLineExcluded, getXY_of_lt, getXYaux, topRightSeg, rightSeg,
      bottomSeg, leftSeg, topLeftSeg, s1, s2, s3, s4, RAIL_TOTAL_LENGTH] <;> decide
  have e39 : fieldLineExcluded 1560 = false := by
    norm_num [fieldLineExcluded, getXY_of_lt, getXYaux, topRightSeg, rightSeg,
      bottomSeg, leftSeg, topLeftSeg, s1, s2, s3, s4, RAIL_TOTAL_LENGTH] <;> decide
  have e40 : fieldLineExcluded 1600 = false := by
    norm_num [fieldLineExcluded, getXY_of_lt, getXYaux, topRightSeg, rightSeg,
      bottomSeg, leftSeg, topLeftSeg, s1, s2, s3, s4, RAIL_TOTAL_LENGTH] <;> decide
  have e41 : fieldLineExcluded 1640 = false := by
    norm_num [fieldLineExcluded, getXY_of_lt, getXYaux, topRightSeg, rightSeg,
      bottomSeg, leftSeg, topLeftSeg, s1, s2, s3, s4, RAIL_TOTAL_LENGTH] <;> decide
  have e42 : fieldLineExcluded 1680 = false := by
    norm_num [fieldLineExcluded, getXY_of_lt, getXYaux, topRightSeg, rightSeg,
      bottomSeg, leftSeg, topLeftSeg, s1, s2, s3, s4, RAIL_TOTAL_LENGTH] <;> decide
  have e43 : fieldLineExcluded 1720 = false := by
    norm_num [fieldLineExcluded, getXY_of_lt, getXYaux, topRightSeg, rightSeg,
      bottomSeg, leftSeg, topLeftSeg, s1, s2, s3, s4, RAIL_TOTAL_LENGTH] <;> decide
  have e44 : fieldLineExcluded 1760 = false := by
    norm_num [fieldLineExcluded, getXY_of_lt, getXYaux, topRightSeg, rightSeg,
      bottomSeg, leftSeg, topLeftSeg, s1, s2, s3, s4, RAIL_TOTAL_LENGTH] <;> decide
  have e45 : fieldLineExcluded 1800 = false := by
    norm_num [fieldLineExcluded, getXY_of_lt, getXYaux, topRightSeg, rightSeg,
      bottomSeg, leftSeg, topLeftSeg, s1, s2, s3, s4, RAIL_TOTAL_LENGTH] <;> decide
  have e46 : fieldLineExcluded 1840 = false := by
    norm_num [fieldLineExcluded, getXY_of_lt, getXYaux, topRightSeg, rightSeg,
      bottomSeg, leftSeg, topLeftSeg, s1, s2, s3, s4, RAIL_TOTAL_LENGTH] <;> decide
  have e47 : fieldLineExcluded 1880 = false := by
    norm_num [fieldLineExcluded, getXY_of_lt, getXYaux, topRightSeg, rightSeg,
      bottomSeg, leftSeg, topLeftSeg, s1, s2, s3, s4, RAIL_TOTAL_LENGTH] <;> decide
  have e48 : fieldLineExcluded 1920 = false := by
    norm_num [fieldLineExcluded, getXY_of_lt, getXYaux, topRightSeg, rightSeg,
      bottomSeg, leftSeg, topLeftSeg, s1, s2, s3, s4, RAIL_TOTAL_LENGTH] <;> decide
  have e49 : fieldLineExcluded 1960 = false := by
    norm_num [fieldLineExcluded, getXY_of_lt, getXYaux, topRightSeg, rightSeg,
      bottomSeg, leftSeg, topLeftSeg, s1, s2, s3, s4, RAIL_TOTAL_LENGTH] <;> decide
  have e50 : fieldLineExcluded 2000 = true := by
    norm_num [fieldLineExcluded, getXY_of_lt, getXYaux, topRightSeg, rightSeg,
      bottomSeg, leftSeg, topLeftSeg, s1, s2, s3, s4, RAIL_TOTAL_LENGTH] <;> decide
  refine ⟨?_, ?_, ?_⟩
  · rw [hfp]
    rfl
  · rw [hfp]
    simp only [List.filter_cons, List.filter_nil, e0, e1, e2, e3, e4, e5, e6, e7, e8, e9, e10, e11, e12, e13, e14, e15, e16, e17, e18, e19, e20, e21, e22, e23, e24, e25, e26, e27, e28, e29, e30, e31, e32, e33, e34, e35, e36, e37, e38, e39, e40, e41, e42, e43, e44, e45, e46, e47, e48, e49, e50]
    norm_num
  · unfold fieldLinesGenerated
    rw [hfp]
    simp only [List.filterMap_cons, List.filterMap_nil, e0, e1, e2, e3, e4, e5, e6, e7, e8, e9, e10, e11, e12, e13, e14, e15, e16, e17, e18, e19, e20, e21, e22, e23, e24, e25, e26, e27, e28, e29, e30, e31, e32, e33, e34, e35, e36, e37, e38, e39, e40, e41, e42, e43, e44, e45, e46, e47, e48, e49, e50]
    norm_num
